import Mathlib

/-!
# typed_python: a verification development

Shallow embedding of

* `typed_python/PythonSubclassType.hpp` (the delegating wrapper `PythonSubclass`),
* `object_database/DictInstance.hpp` (the convenience wrapper `DictInstance`),
* `typed_python/_types.cc` (`Handle`, `native_instance_wrapper`).

Conventions.  A raw pointer is a natural number and `0` is the null pointer.
Code that mutates memory is a function from a state to a result and a new
state.  A C++ exception is the `Except.error` of the result.
-/

set_option autoImplicit false

namespace TypedPython

/-! ## `Type` as seen from `PythonSubclassType.hpp` -/

/-- An effectful operation: it runs in a world `σ` (instance buffers,
serialization buffers, repr streams) and either throws `ε` or returns a
value together with the new world. -/
abbrev Eff (σ ε α : Type) : Type := σ → Except ε (α × σ)

/-- The operations of a base `Type` that `PythonSubclass` calls through its
`m_base` pointer.  `Type.hpp` is not among the files embedded here, so the
operations are parameters: nothing is assumed about what they do. -/
structure TypeOps (σ ε : Type) where
  bytecount : Nat
  is_default_constructible : Bool
  hash32 : (left : Nat) → Eff σ ε Int
  serialize : (self : Nat) → (buffer : Nat) → (fieldNumber : Nat) → Eff σ ε Unit
  deserialize : (self : Nat) → (buffer : Nat) → (wireType : Nat) → Eff σ ε Unit
  repr : (self : Nat) → (stream : Nat) → Eff σ ε Unit
  cmp : (left : Nat) → (right : Nat) → (pyComparisonOp : Int) → Eff σ ε Bool
  constructor : (self : Nat) → Eff σ ε Unit
  destroy : (self : Nat) → Eff σ ε Unit
  copy_constructor : (self : Nat) → (other : Nat) → Eff σ ε Unit
  assign : (self : Nat) → (other : Nat) → Eff σ ε Unit

/-- The class `PythonSubclass`: the wrapped base and the members the
constructor fills in. -/
structure PythonSubclass (σ ε : Type) where
  m_base : TypeOps σ ε
  mTypeRep : Nat
  m_name : String
  m_is_simple : Bool
  m_size : Nat
  m_is_default_constructible : Bool

namespace PythonSubclass

variable {σ ε : Type}

/-- `_forwardTypesMayHaveChanged`: size and default-constructibility are
re-read from the base. -/
def _forwardTypesMayHaveChanged (W : PythonSubclass σ ε) : PythonSubclass σ ε :=
  { W with
    m_size := W.m_base.bytecount
    m_is_default_constructible := W.m_base.is_default_constructible }

/-- The constructor `PythonSubclass(Type* base, PyTypeObject* typePtr)`;
`tp_name` is `typePtr->tp_name`. -/
def new (base : TypeOps σ ε) (typePtr : Nat) (tp_name : String) : PythonSubclass σ ε :=
  _forwardTypesMayHaveChanged
    { m_base := base
      mTypeRep := typePtr
      m_name := tp_name
      m_is_simple := false
      m_size := 0
      m_is_default_constructible := false }

def hash32 (W : PythonSubclass σ ε) (left : Nat) : Eff σ ε Int :=
  W.m_base.hash32 left

def serialize (W : PythonSubclass σ ε) (self buffer fieldNumber : Nat) : Eff σ ε Unit :=
  W.m_base.serialize self buffer fieldNumber

def deserialize (W : PythonSubclass σ ε) (self buffer wireType : Nat) : Eff σ ε Unit :=
  W.m_base.deserialize self buffer wireType

def repr (W : PythonSubclass σ ε) (self stream : Nat) : Eff σ ε Unit :=
  W.m_base.repr self stream

def cmp (W : PythonSubclass σ ε) (left right : Nat) (pyComparisonOp : Int) : Eff σ ε Bool :=
  W.m_base.cmp left right pyComparisonOp

def constructor (W : PythonSubclass σ ε) (self : Nat) : Eff σ ε Unit :=
  W.m_base.constructor self

def destroy (W : PythonSubclass σ ε) (self : Nat) : Eff σ ε Unit :=
  W.m_base.destroy self

def copy_constructor (W : PythonSubclass σ ε) (self other : Nat) : Eff σ ε Unit :=
  W.m_base.copy_constructor self other

def assign (W : PythonSubclass σ ε) (self other : Nat) : Eff σ ε Unit :=
  W.m_base.assign self other

def baseType (W : PythonSubclass σ ε) : TypeOps σ ε := W.m_base

def pyType (W : PythonSubclass σ ε) : Nat := W.mTypeRep

/-- A `PythonSubclass` is itself a `Type`: its operation table, as a caller
holding a `Type*` to the wrapper sees it.  Wrappers can therefore be nested. -/
def asType (W : PythonSubclass σ ε) : TypeOps σ ε where
  bytecount := W.m_size
  is_default_constructible := W.m_is_default_constructible
  hash32 := W.hash32
  serialize := W.serialize
  deserialize := W.deserialize
  repr := W.repr
  cmp := W.cmp
  constructor := W.constructor
  destroy := W.destroy
  copy_constructor := W.copy_constructor
  assign := W.assign

end PythonSubclass

/-! ## `Dict` as seen from `DictInstance.hpp` -/

/-- The three `Dict` member functions that `DictInstance` calls.
`DictType.hpp` is not among the files embedded here, so they are parameters:
`σ` is the state of the dictionary buffer, `κ` the key representation, and a
returned value pointer is a natural number, `0` being null.  Only the
signature of `lookupValueByKey` is taken from the spec (§4.3: it "must not
mutate the table"), so it returns no new state. -/
structure DictOps (σ κ : Type) where
  lookupValueByKey : σ → κ → Nat
  insertKey : σ → κ → Nat × σ
  deleteKey : σ → κ → Bool × σ

namespace DictInstance

variable {σ κ : Type}

def lookupKey (D : DictOps σ κ) (mInstance : σ) (key : κ) : Nat × σ :=
  (D.lookupValueByKey mInstance key, mInstance)

def insertKey (D : DictOps σ κ) (mInstance : σ) (key : κ) : Nat × σ :=
  D.insertKey mInstance key

def deleteKey (D : DictOps σ κ) (mInstance : σ) (key : κ) : Bool × σ :=
  D.deleteKey mInstance key

def lookupOrInsert (D : DictOps σ κ) (mInstance : σ) (key : κ) : Nat × σ :=
  let (resPtr, mInstance1) := lookupKey D mInstance key
  if resPtr ≠ 0 then
    (resPtr, mInstance1)
  else
    insertKey D mInstance1 key

end DictInstance

/-- Modelled from the spec: the `Dict` buffer of §3/§4.3, whose code
(`DictType.hpp`) is not among the files embedded here.  The table is its list
of slots in allocation order; a slot holds its key, or nothing once the key
was deleted.  The value sub-buffer of slot `i` is denoted by the pointer
`i + 1`, so that `0` is the null result. -/
structure DictBuffer (κ : Type) where
  slots : List (Option κ)

namespace DictBuffer

variable {κ : Type} [DecidableEq κ]

/-- Index of the first slot that holds a key equal to `key`. -/
def slotOf (key : κ) : List (Option κ) → Option Nat
  | [] => none
  | s :: rest => if s = some key then some 0 else (slotOf key rest).map (· + 1)

/-- Modelled from the spec: "returns a pointer to the stored value sub-buffer
if a key equal to `*keyPtr` is present, else a null result". -/
def lookupValueByKey (d : DictBuffer κ) (key : κ) : Nat :=
  match slotOf key d.slots with
  | some i => i + 1
  | none => 0

/-- Modelled from the spec: "if an equal key is already present, returns a
pointer to its existing value slot (no-op on the key).  Otherwise allocates
a new slot, copy-constructs the key into it ... and returns a pointer to the
value slot". -/
def insertKey (d : DictBuffer κ) (key : κ) : Nat × DictBuffer κ :=
  match slotOf key d.slots with
  | some i => (i + 1, d)
  | none => (d.slots.length + 1, { slots := d.slots ++ [some key] })

/-- Modelled from the spec: "if an equal key is present, destroys both its
key and value sub-buffers, removes the slot, and returns true; returns false
if absent". -/
def deleteKey (d : DictBuffer κ) (key : κ) : Bool × DictBuffer κ :=
  match slotOf key d.slots with
  | some i => (true, { slots := d.slots.set i none })
  | none => (false, d)

/-- The reported key count: the number of slots that hold a key. -/
def count (d : DictBuffer κ) : Nat :=
  (d.slots.filter Option.isSome).length

/-- The spec's `Dict`, packaged as the operations `DictInstance` calls. -/
def ops : DictOps (DictBuffer κ) κ where
  lookupValueByKey := lookupValueByKey
  insertKey := insertKey
  deleteKey := deleteKey

end DictBuffer

/-! ## `_types.cc`: data model -/

/-- A `Type*`.  Type descriptors are interned (`Int64::Make()`,
`TupleOf::Make(elt)`, ...), so two pointers are equal exactly when the
descriptors are structurally equal. -/
inductive Ty where
  | None
  | Int8
  | Int64
  | Float64
  | TupleOf (elt : Ty)
  deriving DecidableEq, Repr

/-- The part of `Type::TypeCategory` (declared in `Type.hpp`) that these
descriptors use. -/
inductive TypeCategory where
  | catNone
  | catInt8
  | catInt64
  | catFloat64
  | catTupleOf
  deriving DecidableEq, Repr

def Ty.getTypeCategory : Ty → TypeCategory
  | .None => .catNone
  | .Int8 => .catInt8
  | .Int64 => .catInt64
  | .Float64 => .catFloat64
  | .TupleOf _ => .catTupleOf

/-- What a buffer holds.  `zeroed` is a buffer no constructor has run on (the
zero bytes of a fresh `m_data`); `int64 v` is an `int64_t`; `tupleOf elts` is
a constructed `TupleOf` layout, its count being the length of `elts`. -/
inductive Val where
  | zeroed
  | int64 (v : Int)
  | tupleOf (elts : List Val)

/-- The read `*(int64_t*)data`.  Only a buffer written as an `int64_t` is
read this way by well-typed callers; the other two cases give the zero
word. -/
def Val.readInt64 : Val → Int
  | .int64 v => v
  | _ => 0

/-- C++ exceptions thrown in `_types.cc`, both derived from `std::exception`. -/
inductive CppException where
  | logic_error (what : String)
  | runtime_error (what : String)
  deriving DecidableEq, Repr

def CppException.what : CppException → String
  | .logic_error w => w
  | .runtime_error w => w

/-- The Python exception classes that `_types.cc` and `PyLong_AsLong` set. -/
inductive PyExc where
  | TypeError
  | IndexError
  | OverflowError
  deriving DecidableEq, Repr

/-- The interpreter's error indicator when it is set. -/
structure PyErr where
  type : PyExc
  msg : String
  deriving DecidableEq, Repr

/-- The value of a `tp_as_sequence` slot: null, the table returned by
`sequenceMethods()`, or the table of some other type. -/
inductive PySequenceMethodsPtr where
  | null
  | sequenceMethods
  | foreign (table : Nat)
  deriving DecidableEq, Repr

/-- `struct NativeTypeWrapper`: the `PyTypeObject` fields the code sets to
something other than `0` and reads back, and the stashed `Type*`.  `addr`
is the identity of the `new`-allocated object. -/
structure NativeTypeWrapper where
  addr : Nat
  tp_name : String
  tp_as_sequence : PySequenceMethodsPtr
  mType : Ty
  deriving DecidableEq, Repr

/-- A `PyTypeObject*` handed to `extractTypeFrom`: a wrapper built by
`typeObj`, or another type object (`PyLong_Type`, `PyFloat_Type`, ...). -/
inductive PyTypeObjectPtr where
  | wrapper (w : NativeTypeWrapper)
  | builtin (tp_name : String)

/-- The class `Handle`. -/
structure Handle where
  mType : Ty
  m_data : Val
  mIsInitialized : Bool

/-- `Handle(Type* t)`: a zero-filled buffer, not initialized. -/
def Handle.new (t : Ty) : Handle :=
  { mType := t, m_data := Val.zeroed, mIsInitialized := false }

/-- `Handle::get()`: the buffer. -/
def Handle.get (h : Handle) : Val := h.m_data

/-- `struct native_instance_wrapper`: the object header's type and the
handle the object owns. -/
structure native_instance_wrapper where
  ob_type : NativeTypeWrapper
  mHandle : Handle

/-- A host (`PyObject*`) value: an `int`, a `tuple`, an instance of a native
wrapper type, or an object of any other class, of which only the class name
matters. -/
inductive PyObj where
  | long (n : Int)
  | tuple (items : List PyObj)
  | native (w : native_instance_wrapper)
  | other (tp_name : String)

/-- `ob->ob_type->tp_name`. -/
def PyObj.tp_name : PyObj → String
  | .long _ => "int"
  | .tuple _ => "tuple"
  | .native w => w.ob_type.tp_name
  | .other n => n

/-- What the code of `_types.cc` does to a buffer through the `Type`
interface, recorded in call order. -/
inductive Event where
  | count
  | eltPtr (ix : Int)
  | destroy (t : Ty) (data : Val)

/-- The process state `_types.cc` works on: the static map `types` of
`typeObj`, the interpreter's error indicator, and the record of buffer
accesses. -/
structure Runtime where
  types : List (Ty × NativeTypeWrapper)
  err : Option PyErr
  log : List Event

/-- The result of code that may throw: the value or the exception, and the
state it leaves. -/
abbrev Thrown (α : Type) : Type := Except CppException α × Runtime

/-- The members of `Type` (declared in `Type.hpp`) that `_types.cc` calls and
whose code is not embedded here: taken as parameters. -/
structure TypeApi where
  name : Ty → String
  copy_constructor : Ty → Val → Except CppException Val

/-! ### CPython and `TupleOf` primitives -/

def PyErr_SetString (type : PyExc) (msg : String) (s : Runtime) : Runtime :=
  { s with err := some ⟨type, msg⟩ }

def LONG_MIN : Int := -(2 ^ 63)

def LONG_MAX : Int := 2 ^ 63 - 1

/-- `PyLong_AsLong` on an `int` object (64-bit `long`): the value when it
fits, otherwise `-1` with `OverflowError` set. -/
def PyLong_AsLong (n : Int) (s : Runtime) : Int × Runtime :=
  if LONG_MIN ≤ n ∧ n ≤ LONG_MAX then
    (n, s)
  else
    (-1, PyErr_SetString PyExc.OverflowError "Python int too large to convert to C long" s)

def PyLong_FromLong (v : Int) : PyObj := PyObj.long v

/-- `PyLong_Check(ob)`. -/
def PyLong_Check : PyObj → Bool
  | .long _ => true
  | _ => false

/-- `PyTuple_Check(ob)`. -/
def PyTuple_Check : PyObj → Bool
  | .tuple _ => true
  | _ => false

/-- `PyObject_TypeCheck(ob, tp)` for a native wrapper type `tp`: such a type
has no subtypes (`Py_TPFLAGS_DEFAULT`), so only its own instances pass.  When
the check passes the result is `ob` under the cast
`(native_instance_wrapper*)ob` that the caller then makes; `none` is a failed
check. -/
def PyObject_TypeCheck (ob : PyObj) (tp : NativeTypeWrapper) : Option native_instance_wrapper :=
  match ob with
  | .native w => if w.ob_type = tp then some w else none
  | _ => none

/-- Record one buffer access. -/
def Runtime.record (s : Runtime) (e : Event) : Runtime :=
  { s with log := s.log ++ [e] }

/-- Modelled from the spec: the element loop of
`TupleOf::constructor(tgt, count, allocator)` (`Type.hpp`, not embedded here):
`allocator(eltPtr k, k)` runs for `k = 0, ..., count - 1` in order, and an
exception of the allocator ends the construction and propagates. -/
def TupleOf.constructElts : (count : Nat) → (Fin count → Runtime → Thrown Val) →
    Runtime → Thrown (List Val)
  | 0, _, s => (.ok [], s)
  | n + 1, allocator, s =>
    match allocator 0 s with
    | (.error e, s1) => (.error e, s1)
    | (.ok v, s1) =>
      match constructElts n (fun k => allocator k.succ) s1 with
      | (.error e, s2) => (.error e, s2)
      | (.ok vs, s2) => (.ok (v :: vs), s2)

/-- Modelled from the spec: `TupleOf::constructor(tgt, count, allocator)`
leaves in `tgt` "a contiguous run of N element sub-buffers", the "count
stored alongside". -/
def TupleOf.constructor (count : Nat) (allocator : Fin count → Runtime → Thrown Val)
    (s : Runtime) : Thrown Val :=
  match TupleOf.constructElts count allocator s with
  | (.error e, s1) => (.error e, s1)
  | (.ok vs, s1) => (.ok (Val.tupleOf vs), s1)

/-- Modelled from the spec: `TupleOf::count(self)`, the stored count. -/
def TupleOf.count : Val → Int
  | .tupleOf elts => elts.length
  | _ => 0

/-- Modelled from the spec: `TupleOf::eltPtr(self, ix)`, the sub-buffer of
element `ix`.  Outside `0 <= ix < count` the pointer leaves the array and
nothing is known of what it points to. -/
def TupleOf.eltPtr (self : Val) (ix : Int) : Val :=
  match self with
  | .tupleOf elts => if 0 ≤ ix then elts.getD ix.toNat Val.zeroed else Val.zeroed
  | _ => Val.zeroed

/-- `~Handle()`. -/
def Handle.dtor (h : Handle) (s : Runtime) : Runtime :=
  if h.mIsInitialized then
    s.record (Event.destroy h.mType h.get)
  else
    s

/-! ### `native_instance_wrapper` -/

namespace native_instance_wrapper

/-- `typeObj(inType)`: the wrapper stored for `inType` in the static map, or
a newly allocated one, stored before it is returned. -/
def typeObj (api : TypeApi) (inType : Ty) (s : Runtime) : NativeTypeWrapper × Runtime :=
  match s.types.lookup inType with
  | some it => (it, s)
  | none =>
    let w : NativeTypeWrapper :=
      { addr := s.types.length
        tp_name := api.name inType
        tp_as_sequence := PySequenceMethodsPtr.sequenceMethods
        mType := inType }
    (w, { s with types := (inType, w) :: s.types })

/-- `extractTypeFrom(typeObj)`.  A type object that is not one of the
wrappers has its own `tp_as_sequence`, never the table of
`sequenceMethods()`. -/
def extractTypeFrom (typeObj : PyTypeObjectPtr) : Option Ty :=
  match typeObj with
  | .wrapper w =>
    if w.tp_as_sequence = PySequenceMethodsPtr.sequenceMethods then
      some w.mType
    else
      none
  | .builtin _ => none

/-- `tp_dealloc(self)`: the wrapper's `shared_ptr` is the only owner of its
`Handle` (the local `shared_ptr` it was copied from is gone when `tp_new` or
`extractPythonObject` returns), so destroying it runs `~Handle()`. -/
def tp_dealloc (self : native_instance_wrapper) (s : Runtime) : Runtime :=
  self.mHandle.dtor s

/-- `copy_initialize(eltType, tgt, pyRepresentation)`; the value is what the
call leaves in `tgt`.  `PyLong_Check` and `PyTuple_Check` are the matches on
the host value, and the test `cat == catTupleOf` with its downcast
`(TupleOf*)eltType` is the match on `eltType`. -/
def copy_initialize (api : TypeApi) :
    (eltType : Ty) → (pyRepresentation : PyObj) → Runtime → Thrown Val
  | eltType, pyRepresentation, s =>
    let cat := eltType.getTypeCategory
    if cat = TypeCategory.catInt64 then
      match pyRepresentation with
      | .long n =>
        let (v, s1) := PyLong_AsLong n s
        (.ok (Val.int64 v), s1)
      | _ =>
        (.error (CppException.logic_error
          ("Can't initialize an int64 from an instance of " ++ pyRepresentation.tp_name)), s)
    else
      let (tp, s1) := typeObj api eltType s
      match PyObject_TypeCheck pyRepresentation tp with
      | some w => (api.copy_constructor eltType w.mHandle.get, s1)
      | none =>
        match eltType with
        | .TupleOf elt =>
          match pyRepresentation with
          | .tuple items =>
            TupleOf.constructor items.length
              (fun k => copy_initialize api elt (items.get k)) s1
          | _ => (.error (CppException.runtime_error "wanted a tuple"), s1)
        | _ =>
          if cat = TypeCategory.catInt64 then
            match pyRepresentation with
            | .long n =>
              let (v, s2) := PyLong_AsLong n s1
              (.ok (Val.int64 v), s2)
            | _ => (.error (CppException.logic_error "Couldn't initialize internal elt."), s1)
          else
            (.error (CppException.logic_error "Couldn't initialize internal elt."), s1)

/-- `extractPythonObject(data, eltType)`; `none` is the `NULL` result.  On
the `catch` path the local `shared_ptr` is the only owner of the handle, so
`~Handle()` runs when the function returns. -/
def extractPythonObject (api : TypeApi) (data : Val) (eltType : Ty) (s : Runtime) :
    Option PyObj × Runtime :=
  if eltType.getTypeCategory = TypeCategory.catInt64 then
    (some (PyLong_FromLong data.readInt64), s)
  else
    let handle := Handle.new eltType
    match api.copy_constructor eltType data with
    | .ok v =>
      let handle := { handle with m_data := v }
      let handle := { handle with mIsInitialized := true }
      let (_, s1) := typeObj api eltType s
      let (tp, s2) := typeObj api eltType s1
      (some (PyObj.native { ob_type := tp, mHandle := handle }), s2)
    | .error e =>
      let s1 := PyErr_SetString PyExc.TypeError e.what s
      (none, handle.dtor s1)

/-- The function `initialize(t, args, kwargs)`.  When it throws, the local
`shared_ptr` is the only owner of the handle, so `~Handle()` runs during
unwinding.  `PyTuple_Size(args) != 1` is the match on `args`. -/
def initialize_ (api : TypeApi) (t : Ty) (args : List PyObj) (_kwargs : List (String × PyObj))
    (s : Runtime) : Thrown Handle :=
  let handle := Handle.new t
  let cat := t.getTypeCategory
  if cat = TypeCategory.catTupleOf then
    match args with
    | [argTuple] =>
      match copy_initialize api t argTuple s with
      | (.ok v, s1) =>
        let handle := { handle with m_data := v }
        let handle := { handle with mIsInitialized := true }
        (.ok handle, s1)
      | (.error e, s1) => (.error e, handle.dtor s1)
    | _ => (.error (CppException.runtime_error "wrong argument count"), handle.dtor s)
  else
    (.error (CppException.logic_error "Unknown"), handle.dtor s)

/-- `tp_new(subtype, args, kwds)`; `none` is the `NULL` result. -/
def tp_new (api : TypeApi) (subtype : NativeTypeWrapper) (args : List PyObj)
    (kwds : List (String × PyObj)) (s : Runtime) : Option PyObj × Runtime :=
  match initialize_ api subtype.mType args kwds s with
  | (.error e, s1) => (none, PyErr_SetString PyExc.TypeError e.what s1)
  | (.ok handle, s1) => (some (PyObj.native { ob_type := subtype, mHandle := handle }), s1)

/-- `sq_length(w)`.  The result is `none` when control reaches the end of
the function body, which has no `return` statement there. -/
def sq_length (w : native_instance_wrapper) (s : Runtime) : Option Int × Runtime :=
  if w.mHandle.mType.getTypeCategory = TypeCategory.catTupleOf then
    (some (TupleOf.count w.mHandle.get), s.record Event.count)
  else
    (none, PyErr_SetString PyExc.TypeError "not a __len__'able thing." s)

/-- `sq_item(w, ix)`; `none` is the `NULL` result. -/
def sq_item (api : TypeApi) (w : native_instance_wrapper) (ix : Int) (s : Runtime) :
    Option PyObj × Runtime :=
  match w.mHandle.mType with
  | .TupleOf eltType =>
    let count := TupleOf.count w.mHandle.get
    let s1 := s.record Event.count
    if ix ≥ count ∨ ix < 0 then
      (none, PyErr_SetString PyExc.IndexError "out of bounds" s1)
    else
      extractPythonObject api (TupleOf.eltPtr w.mHandle.get ix) eltType
        (s1.record (Event.eltPtr ix))
  | _ => (none, PyErr_SetString PyExc.TypeError "not a __getitem__'able thing." s)

end native_instance_wrapper

/-- A text for `Type::name()`, which `Type.hpp` would fix: the `Make`
expression of the descriptor.  No theorem depends on the choice. -/
def Ty.name : Ty → String
  | .None => "NoneType"
  | .Int8 => "Int8"
  | .Int64 => "Int64"
  | .Float64 => "Float64"
  | .TupleOf elt => "TupleOf(" ++ elt.name ++ ")"

/-- Modelled from the spec: a concrete `TypeApi` for evaluating the code on
examples, in which `copy_constructor(ptr, other)` "writes a new, independent
value at `ptr` equal to the value at `other`" and never throws. -/
def plainApi : TypeApi where
  name := Ty.name
  copy_constructor := fun _ other => .ok other

/-- The state of a process in which `typeObj` was never called and no error
is set. -/
def Runtime.initial : Runtime := { types := [], err := none, log := [] }

/-- A run of `typeObj` requests, one for each descriptor in order. -/
def typeObjAll (api : TypeApi) : List Ty → Runtime → Runtime
  | [], s => s
  | inType :: rest, s => typeObjAll api rest (native_instance_wrapper.typeObj api inType s).2

/-- Every wrapper in the static map of `typeObj` was built for its key. -/
def Runtime.WellFormed (s : Runtime) : Prop :=
  ∀ inType w, s.types.lookup inType = some w →
    w.mType = inType ∧ w.tp_as_sequence = PySequenceMethodsPtr.sequenceMethods

/-- The exceptions of the two places where no construction rule exists:
`throw std::logic_error("Unknown")` in `initialize`, for a category that is
not `TupleOf`, and the final `throw` of `copy_initialize`. -/
def CppException.unsupportedConversion (e : CppException) : Bool :=
  decide (e = CppException.logic_error "Unknown") ||
    decide (e = CppException.logic_error "Couldn't initialize internal elt.")

/-- The exceptions of the two shape tests: `PyTuple_Size(args) != 1` in
`initialize` and `!PyTuple_Check(pyRepresentation)` in `copy_initialize`. -/
def CppException.shapeMismatch (e : CppException) : Bool :=
  decide (e = CppException.runtime_error "wrong argument count") ||
    decide (e = CppException.runtime_error "wanted a tuple")

/-- The exception of the `catInt64` branch of `copy_initialize` for a source
that fails `PyLong_Check`. -/
def CppException.notAnInt (e : CppException) : Prop :=
  ∃ tp_name, e = CppException.logic_error
    ("Can't initialize an int64 from an instance of " ++ tp_name)

/-! ## Example values -/

/-- A dictionary of 64-bit integer keys holding the keys 1 and 2. -/
def DictBuffer.example12 : DictBuffer Int := { slots := [some 1, some 2] }

/-- A wrapper type for `TupleOf(Int64)` and an instance of it holding
`(10, 20)`. -/
def exampleTupleType : NativeTypeWrapper :=
  (native_instance_wrapper.typeObj plainApi (Ty.TupleOf Ty.Int64) Runtime.initial).1

def exampleTuple : native_instance_wrapper :=
  { ob_type := exampleTupleType
    mHandle :=
      { mType := Ty.TupleOf Ty.Int64
        m_data := Val.tupleOf [Val.int64 10, Val.int64 20]
        mIsInitialized := true } }

/-- The wrapper type of `Int8`, as the module function `Int8` returns it. -/
def exampleInt8Type : NativeTypeWrapper :=
  (native_instance_wrapper.typeObj plainApi Ty.Int8 Runtime.initial).1

/-- The wrapper type of `TupleOf(Int8)`. -/
def exampleTupleInt8Type : NativeTypeWrapper :=
  (native_instance_wrapper.typeObj plainApi (Ty.TupleOf Ty.Int8) Runtime.initial).1

/-- The wrapper type of `TupleOf(TupleOf(Int8))`. -/
def exampleNestedInt8Type : NativeTypeWrapper :=
  (native_instance_wrapper.typeObj plainApi (Ty.TupleOf (Ty.TupleOf Ty.Int8))
    Runtime.initial).1

/-! ## Theorems: `PythonSubclass` -/

/-- C1. Every operation of a `PythonSubclass` wrapper `W` (hash32, cmp,
serialize, deserialize, repr, constructor, destroy, copy_constructor,
assign) is the same-named operation of its base applied to the same
arguments in the same world: same result or exception, same final world.
The base of the wrapper that the constructor builds over `base` is `base`,
whose size and default-constructibility it shares. -/
theorem PythonSubclass.forwards_to_base {σ ε : Type} (W : PythonSubclass σ ε)
    (base : TypeOps σ ε) (typePtr : Nat) (tp_name : String)
    (self other buffer stream n : Nat) (op : Int) (world : σ) :
    W.hash32 self world = W.m_base.hash32 self world ∧
    W.cmp self other op world = W.m_base.cmp self other op world ∧
    W.serialize self buffer n world = W.m_base.serialize self buffer n world ∧
    W.deserialize self buffer n world = W.m_base.deserialize self buffer n world ∧
    W.repr self stream world = W.m_base.repr self stream world ∧
    W.constructor self world = W.m_base.constructor self world ∧
    W.destroy self world = W.m_base.destroy self world ∧
    W.copy_constructor self other world = W.m_base.copy_constructor self other world ∧
    W.assign self other world = W.m_base.assign self other world ∧
    (PythonSubclass.new base typePtr tp_name).m_base = base ∧
    (PythonSubclass.new base typePtr tp_name).m_size = base.bytecount ∧
    (PythonSubclass.new base typePtr tp_name).m_is_default_constructible
      = base.is_default_constructible :=
  ⟨rfl, rfl, rfl, rfl, rfl, rfl, rfl, rfl, rfl, rfl, rfl, rfl⟩

/-! ## Theorems: `DictInstance` -/

namespace DictBuffer

variable {κ : Type} [DecidableEq κ]

theorem slotOf_append_new (key : κ) (slots : List (Option κ))
    (h : slotOf key slots = none) :
    slotOf key (slots ++ [some key]) = some slots.length := by
  induction slots with
  | nil => simp [slotOf]
  | cons s rest ih =>
    by_cases hs : s = some key
    · simp [slotOf, hs] at h
    · simp only [slotOf, hs, if_false, Option.map_eq_none'] at h
      simp [slotOf, hs, ih h]

/-- After `insertKey`, `lookupValueByKey` finds the returned slot. -/
theorem lookup_after_insert (d : DictBuffer κ) (key : κ) :
    lookupValueByKey (insertKey d key).2 key = (insertKey d key).1 ∧
      (insertKey d key).1 ≠ 0 := by
  unfold insertKey
  cases h : slotOf key d.slots with
  | some i => simp [lookupValueByKey, h]
  | none => simp [lookupValueByKey, slotOf_append_new key d.slots h]

/-- A second `insertKey` of the same key is a no-op returning the same slot. -/
theorem insert_insert (d : DictBuffer κ) (key : κ) :
    insertKey (insertKey d key).2 key = insertKey d key := by
  unfold insertKey
  cases h : slotOf key d.slots with
  | some i => simp [h]
  | none => simp [slotOf_append_new key d.slots h]

end DictBuffer

/-- C2. `lookupOrInsert(k)` is `lookupKey` falling back to `insertKey`, for
every `Dict` implementation: when `lookupKey(k)` is non-null that pointer is
returned and the dictionary is unchanged; when it is null the result is that
of one `insertKey(k)` call on the unchanged dictionary. -/
theorem DictInstance.lookupOrInsert_spec {σ κ : Type} (D : DictOps σ κ) (d : σ) (k : κ) :
    ((DictInstance.lookupKey D d k).1 ≠ 0 →
      DictInstance.lookupOrInsert D d k = ((DictInstance.lookupKey D d k).1, d)) ∧
    ((DictInstance.lookupKey D d k).1 = 0 →
      DictInstance.lookupOrInsert D d k = DictInstance.insertKey D d k) := by
  constructor
  · intro h
    simp only [DictInstance.lookupKey] at h
    simp [DictInstance.lookupOrInsert, DictInstance.lookupKey, h]
  · intro h
    simp only [DictInstance.lookupKey] at h
    simp [DictInstance.lookupOrInsert, DictInstance.lookupKey, h]

/-- C2 at a concrete dictionary with keys 1 and 2: key 2 is found in its
slot and nothing is inserted; key 3 is not found and is inserted in a new
slot. -/
theorem DictInstance.lookupOrInsert_spec_witness :
    DictInstance.lookupOrInsert DictBuffer.ops DictBuffer.example12 2
        = (2, DictBuffer.example12) ∧
    DictInstance.lookupOrInsert DictBuffer.ops DictBuffer.example12 3
        = (3, { slots := [some 1, some 2, some 3] }) :=
  ⟨(DictInstance.lookupOrInsert_spec DictBuffer.ops DictBuffer.example12 2).1 (by decide),
   (DictInstance.lookupOrInsert_spec DictBuffer.ops DictBuffer.example12 3).2 (by decide)⟩

/-- C3. In the spec's `Dict`, inserting the same key twice, by `insertKey`
or by `lookupOrInsert`: the second call returns the slot the first call
returned, that slot is not null, the second call leaves the dictionary as
the first call left it, and so the reported key count does not grow. -/
theorem DictInstance.insert_twice {κ : Type} [DecidableEq κ] (d : DictBuffer κ) (k : κ) :
    ((DictInstance.insertKey DictBuffer.ops (DictInstance.insertKey DictBuffer.ops d k).2 k).1
        = (DictInstance.insertKey DictBuffer.ops d k).1 ∧
      (DictInstance.insertKey DictBuffer.ops d k).1 ≠ 0 ∧
      (DictInstance.insertKey DictBuffer.ops (DictInstance.insertKey DictBuffer.ops d k).2 k).2
        = (DictInstance.insertKey DictBuffer.ops d k).2 ∧
      (DictInstance.insertKey DictBuffer.ops
          (DictInstance.insertKey DictBuffer.ops d k).2 k).2.count
        ≤ (DictInstance.insertKey DictBuffer.ops d k).2.count) ∧
    ((DictInstance.lookupOrInsert DictBuffer.ops
          (DictInstance.lookupOrInsert DictBuffer.ops d k).2 k).1
        = (DictInstance.lookupOrInsert DictBuffer.ops d k).1 ∧
      (DictInstance.lookupOrInsert DictBuffer.ops d k).1 ≠ 0 ∧
      (DictInstance.lookupOrInsert DictBuffer.ops
          (DictInstance.lookupOrInsert DictBuffer.ops d k).2 k).2
        = (DictInstance.lookupOrInsert DictBuffer.ops d k).2 ∧
      (DictInstance.lookupOrInsert DictBuffer.ops
          (DictInstance.lookupOrInsert DictBuffer.ops d k).2 k).2.count
        ≤ (DictInstance.lookupOrInsert DictBuffer.ops d k).2.count) := by
  have hII := DictBuffer.insert_insert d k
  have hLI := DictBuffer.lookup_after_insert d k
  have hI : ∀ x : DictBuffer κ,
      DictInstance.insertKey DictBuffer.ops x k = DictBuffer.insertKey x k := fun _ => rfl
  constructor
  · rw [hI, hI, hII]
    exact ⟨rfl, hLI.2, rfl, le_refl _⟩
  · by_cases h : DictBuffer.lookupValueByKey d k = 0
    · have h1 : DictInstance.lookupOrInsert DictBuffer.ops d k = DictBuffer.insertKey d k := by
        simp [DictInstance.lookupOrInsert, DictInstance.lookupKey, DictInstance.insertKey,
          DictBuffer.ops, h]
      have h2 : DictInstance.lookupOrInsert DictBuffer.ops (DictBuffer.insertKey d k).2 k
          = DictBuffer.insertKey d k := by
        simp [DictInstance.lookupOrInsert, DictInstance.lookupKey, DictBuffer.ops, hLI.1, hLI.2]
      rw [h1, h2]
      exact ⟨rfl, hLI.2, rfl, le_refl _⟩
    · have h1 : DictInstance.lookupOrInsert DictBuffer.ops d k
          = (DictBuffer.lookupValueByKey d k, d) := by
        simp [DictInstance.lookupOrInsert, DictInstance.lookupKey, DictBuffer.ops, h]
      rw [h1]
      simp only
      rw [h1]
      exact ⟨rfl, h, rfl, le_refl _⟩

/-! ## Theorems: `typeObj` -/

namespace native_instance_wrapper

theorem typeObj_log (api : TypeApi) (inType : Ty) (s : Runtime) :
    (typeObj api inType s).2.log = s.log := by
  unfold typeObj
  cases s.types.lookup inType <;> rfl

theorem typeObj_err (api : TypeApi) (inType : Ty) (s : Runtime) :
    (typeObj api inType s).2.err = s.err := by
  unfold typeObj
  cases s.types.lookup inType <;> rfl

/-- After `typeObj(inType)` the map holds the returned wrapper for `inType`. -/
theorem typeObj_lookup (api : TypeApi) (inType : Ty) (s : Runtime) :
    (typeObj api inType s).2.types.lookup inType = some (typeObj api inType s).1 := by
  unfold typeObj
  cases h : s.types.lookup inType with
  | some w => simpa using h
  | none => simp [List.lookup]

/-- A request for any descriptor keeps the wrappers already stored. -/
theorem typeObj_keeps (api : TypeApi) (other inType : Ty) (w : NativeTypeWrapper) (s : Runtime)
    (h : s.types.lookup inType = some w) :
    (typeObj api other s).2.types.lookup inType = some w := by
  unfold typeObj
  cases ho : s.types.lookup other with
  | some w2 => simpa using h
  | none =>
    have hne : ¬ inType = other := by
      intro heq
      rw [heq, ho] at h
      exact Option.noConfusion h
    have hb : (inType == other) = false := by simpa using hne
    simp [List.lookup, hb, h]

theorem typeObjAll_keeps (api : TypeApi) (requests : List Ty) (inType : Ty)
    (w : NativeTypeWrapper) (s : Runtime) (h : s.types.lookup inType = some w) :
    (typeObjAll api requests s).types.lookup inType = some w := by
  induction requests generalizing s with
  | nil => exact h
  | cons r rest ih => exact ih _ (typeObj_keeps api r inType w s h)

/-- A stored wrapper is returned as it is, and nothing is built. -/
theorem typeObj_of_lookup (api : TypeApi) (inType : Ty) (w : NativeTypeWrapper) (s : Runtime)
    (h : s.types.lookup inType = some w) : typeObj api inType s = (w, s) := by
  unfold typeObj
  rw [h]

theorem typeObj_wellFormed (api : TypeApi) (inType : Ty) (s : Runtime) (h : s.WellFormed) :
    (typeObj api inType s).2.WellFormed := by
  unfold typeObj
  cases ho : s.types.lookup inType with
  | some w => exact h
  | none =>
    intro t w hw
    by_cases heq : t = inType
    · subst heq
      simp [List.lookup] at hw
      subst hw
      exact ⟨rfl, rfl⟩
    · have hb : (t == inType) = false := by simpa using heq
      simp only [List.lookup, hb] at hw
      exact h t w hw

theorem typeObjAll_wellFormed (api : TypeApi) (requests : List Ty) (s : Runtime)
    (h : s.WellFormed) : (typeObjAll api requests s).WellFormed := by
  induction requests generalizing s with
  | nil => exact h
  | cons r rest ih => exact ih _ (typeObj_wellFormed api r s h)

end native_instance_wrapper

/-- C9. `typeObj` is a lookup-or-create keyed by the descriptor.  In a
process whose map starts empty, after any requests `before`: a request for
`T` builds one wrapper when `T` has none yet and none otherwise; after any
further requests `between`, a request for `T` returns the same wrapper and
leaves the state as it is; and `extractTypeFrom` of the wrapper is `T`. -/
theorem native_instance_wrapper.typeObj_idempotent (api : TypeApi) (err : Option PyErr)
    (log : List Event) (before between : List Ty) (T : Ty) :
    native_instance_wrapper.typeObj api T
        (typeObjAll api between (native_instance_wrapper.typeObj api T
          (typeObjAll api before { types := [], err := err, log := log })).2)
      = ((native_instance_wrapper.typeObj api T
            (typeObjAll api before { types := [], err := err, log := log })).1,
          typeObjAll api between (native_instance_wrapper.typeObj api T
            (typeObjAll api before { types := [], err := err, log := log })).2) ∧
    native_instance_wrapper.extractTypeFrom (PyTypeObjectPtr.wrapper
        (native_instance_wrapper.typeObj api T
          (typeObjAll api before { types := [], err := err, log := log })).1) = some T ∧
    (native_instance_wrapper.typeObj api T
        (typeObjAll api before { types := [], err := err, log := log })).2.types.length
      = (typeObjAll api before { types := [], err := err, log := log }).types.length
        + (if (typeObjAll api before { types := [], err := err, log := log }).types.lookup T
              = none then 1 else 0) := by
  generalize hs : typeObjAll api before { types := [], err := err, log := log } = s
  have hwf : s.WellFormed := by
    rw [← hs]
    apply native_instance_wrapper.typeObjAll_wellFormed
    intro t w hw
    simp [List.lookup] at hw
  have h1 := native_instance_wrapper.typeObj_lookup api T s
  refine ⟨?_, ?_, ?_⟩
  · exact native_instance_wrapper.typeObj_of_lookup api T _ _
      (native_instance_wrapper.typeObjAll_keeps api between T _ _ h1)
  · have h2 := native_instance_wrapper.typeObj_wellFormed api T s hwf _ _ h1
    simp [native_instance_wrapper.extractTypeFrom, h2.1, h2.2]
  · unfold native_instance_wrapper.typeObj
    cases ho : s.types.lookup T with
    | some w => simp
    | none => simp

/-! ## Theorems: what the construction paths record -/

theorem PyLong_AsLong_log (n : Int) (s : Runtime) : (PyLong_AsLong n s).2.log = s.log := by
  unfold PyLong_AsLong
  split <;> rfl

theorem TupleOf.constructElts_log (count : Nat) (allocator : Fin count → Runtime → Thrown Val)
    (h : ∀ k s, (allocator k s).2.log = s.log) (s : Runtime) :
    (TupleOf.constructElts count allocator s).2.log = s.log := by
  induction count generalizing s with
  | zero => rfl
  | succ n ih =>
    unfold TupleOf.constructElts
    have h0 := h 0 s
    cases hr : allocator 0 s with
    | mk r s1 =>
      rw [hr] at h0
      cases r with
      | error e => exact h0
      | ok v =>
        have ih2 := ih (fun k => allocator k.succ) (fun k s => h k.succ s) s1
        simp only
        cases hr2 : TupleOf.constructElts n (fun k => allocator k.succ) s1 with
        | mk r2 s2 =>
          rw [hr2] at ih2
          cases r2 with
          | error e => exact ih2.trans h0
          | ok vs => exact ih2.trans h0

theorem TupleOf.constructor_log (count : Nat) (allocator : Fin count → Runtime → Thrown Val)
    (h : ∀ k s, (allocator k s).2.log = s.log) (s : Runtime) :
    (TupleOf.constructor count allocator s).2.log = s.log := by
  have h1 := TupleOf.constructElts_log count allocator h s
  unfold TupleOf.constructor
  cases hr : TupleOf.constructElts count allocator s with
  | mk r s1 =>
    rw [hr] at h1
    cases r <;> exact h1

namespace native_instance_wrapper

/-- `copy_initialize` makes no recorded buffer access: it only writes the
target buffer it is given. -/
theorem copy_initialize_log (api : TypeApi) (eltType : Ty) (pyRepresentation : PyObj)
    (s : Runtime) : ( copy_initialize api eltType pyRepresentation s).2.log = s.log := by
  induction eltType generalizing pyRepresentation s with
  | Int64 =>
    unfold copy_initialize
    cases pyRepresentation <;> simp [Ty.getTypeCategory, PyLong_AsLong_log]
  | TupleOf elt ih =>
    unfold copy_initialize
    simp only [Ty.getTypeCategory]
    have ht := typeObj_log api (Ty.TupleOf elt) s
    cases hto : typeObj api (Ty.TupleOf elt) s with
    | mk tp s1 =>
      rw [hto] at ht
      simp only [reduceCtorEq, if_false]
      cases PyObject_TypeCheck pyRepresentation tp with
      | some w => exact ht
      | none =>
        cases pyRepresentation with
        | tuple items =>
          exact (TupleOf.constructor_log _ _ (fun k s => ih (items.get k) s) s1).trans ht
        | long n => exact ht
        | native w => exact ht
        | other n => exact ht
  | None =>
    unfold copy_initialize
    simp only [Ty.getTypeCategory]
    have ht := typeObj_log api Ty.None s
    cases hto : typeObj api Ty.None s with
    | mk tp s1 =>
      rw [hto] at ht
      simp only [reduceCtorEq, if_false]
      cases PyObject_TypeCheck pyRepresentation tp <;> exact ht
  | Int8 =>
    unfold copy_initialize
    simp only [Ty.getTypeCategory]
    have ht := typeObj_log api Ty.Int8 s
    cases hto : typeObj api Ty.Int8 s with
    | mk tp s1 =>
      rw [hto] at ht
      simp only [reduceCtorEq, if_false]
      cases PyObject_TypeCheck pyRepresentation tp <;> exact ht
  | Float64 =>
    unfold copy_initialize
    simp only [Ty.getTypeCategory]
    have ht := typeObj_log api Ty.Float64 s
    cases hto : typeObj api Ty.Float64 s with
    | mk tp s1 =>
      rw [hto] at ht
      simp only [reduceCtorEq, if_false]
      cases PyObject_TypeCheck pyRepresentation tp <;> exact ht

end native_instance_wrapper

namespace native_instance_wrapper

theorem extractPythonObject_log (api : TypeApi) (data : Val) (eltType : Ty) (s : Runtime) :
    (extractPythonObject api data eltType s).2.log = s.log := by
  unfold extractPythonObject
  split
  · rfl
  · cases api.copy_constructor eltType data with
    | error e => rfl
    | ok v =>
      simp only
      rw [typeObj_log, typeObj_log]

theorem initialize_log (api : TypeApi) (t : Ty) (args : List PyObj)
    (kwargs : List (String × PyObj)) (s : Runtime) :
    (initialize_ api t args kwargs s).2.log = s.log := by
  unfold initialize_
  simp only
  split
  · split
    · rename_i argTuple
      have h := copy_initialize_log api t argTuple s
      cases hr : copy_initialize api t argTuple s with
      | mk r s1 =>
        rw [hr] at h
        cases r <;> exact h
    · rfl
  · rfl

end native_instance_wrapper

/-! ## Theorems: sequence protocol -/

/-- C10. `sq_item` on a `TupleOf` instance with elements `elts`: for
`0 <= ix < count` it is the extraction of element `ix`, the one element
whose storage it takes with `eltPtr`; for `ix < 0` or `ix >= count` it
returns `NULL` with `IndexError "out of bounds"` and no `eltPtr` call is
made. -/
theorem native_instance_wrapper.sq_item_bounds (api : TypeApi) (w : native_instance_wrapper)
    (eltType : Ty) (elts : List Val) (ix : Int) (s : Runtime)
    (hT : w.mHandle.mType = Ty.TupleOf eltType) (hD : w.mHandle.m_data = Val.tupleOf elts) :
    (0 ≤ ix ∧ ix < elts.length →
      ∃ v, elts[ix.toNat]? = some v ∧
        native_instance_wrapper.sq_item api w ix s
          = native_instance_wrapper.extractPythonObject api v eltType
              ((s.record Event.count).record (Event.eltPtr ix)) ∧
        (native_instance_wrapper.sq_item api w ix s).2.log
          = s.log ++ [Event.count, Event.eltPtr ix]) ∧
    (ix < 0 ∨ (elts.length : Int) ≤ ix →
      native_instance_wrapper.sq_item api w ix s
          = (none, PyErr_SetString PyExc.IndexError "out of bounds" (s.record Event.count)) ∧
        (native_instance_wrapper.sq_item api w ix s).2.log = s.log ++ [Event.count]) := by
  constructor
  · rintro ⟨h0, h1⟩
    have hlt : ix.toNat < elts.length := by omega
    have hcond : ¬ (ix ≥ (elts.length : Int) ∨ ix < 0) := by omega
    have hitem : native_instance_wrapper.sq_item api w ix s
        = native_instance_wrapper.extractPythonObject api elts[ix.toNat] eltType
            ((s.record Event.count).record (Event.eltPtr ix)) := by
      unfold native_instance_wrapper.sq_item
      rw [hT]
      simp only [Handle.get, hD, TupleOf.count, hcond, if_false, TupleOf.eltPtr, h0, if_true]
      rw [List.getD_eq_getElem _ _ hlt]
    refine ⟨elts[ix.toNat], by simp [hlt], hitem, ?_⟩
    rw [hitem, native_instance_wrapper.extractPythonObject_log]
    simp [Runtime.record]
  · intro h
    have hcond : ix ≥ (elts.length : Int) ∨ ix < 0 := by omega
    have hitem : native_instance_wrapper.sq_item api w ix s
        = (none, PyErr_SetString PyExc.IndexError "out of bounds" (s.record Event.count)) := by
      unfold native_instance_wrapper.sq_item
      rw [hT]
      simp only [Handle.get, hD, TupleOf.count, hcond, if_true]
    exact ⟨hitem, by rw [hitem]; rfl⟩

/-- C10 at the instance `(10, 20)`: index 1 is in bounds and yields an
extraction of `20`; indices 2 and -1 are out of bounds. -/
theorem native_instance_wrapper.sq_item_bounds_witness :
    (∃ v, [Val.int64 10, Val.int64 20][(1 : Int).toNat]? = some v ∧
        native_instance_wrapper.sq_item plainApi exampleTuple 1 Runtime.initial
          = native_instance_wrapper.extractPythonObject plainApi v Ty.Int64
              ((Runtime.initial.record Event.count).record (Event.eltPtr 1)) ∧
        (native_instance_wrapper.sq_item plainApi exampleTuple 1 Runtime.initial).2.log
          = Runtime.initial.log ++ [Event.count, Event.eltPtr 1]) ∧
    (native_instance_wrapper.sq_item plainApi exampleTuple 2 Runtime.initial
          = (none, PyErr_SetString PyExc.IndexError "out of bounds"
              (Runtime.initial.record Event.count)) ∧
        (native_instance_wrapper.sq_item plainApi exampleTuple 2 Runtime.initial).2.log
          = Runtime.initial.log ++ [Event.count]) ∧
    (native_instance_wrapper.sq_item plainApi exampleTuple (-1) Runtime.initial
          = (none, PyErr_SetString PyExc.IndexError "out of bounds"
              (Runtime.initial.record Event.count)) ∧
        (native_instance_wrapper.sq_item plainApi exampleTuple (-1) Runtime.initial).2.log
          = Runtime.initial.log ++ [Event.count]) :=
  ⟨(native_instance_wrapper.sq_item_bounds plainApi exampleTuple Ty.Int64
      [Val.int64 10, Val.int64 20] 1 Runtime.initial rfl rfl).1 ⟨by decide, by decide⟩,
   (native_instance_wrapper.sq_item_bounds plainApi exampleTuple Ty.Int64
      [Val.int64 10, Val.int64 20] 2 Runtime.initial rfl rfl).2 (Or.inr (by decide)),
   (native_instance_wrapper.sq_item_bounds plainApi exampleTuple Ty.Int64
      [Val.int64 10, Val.int64 20] (-1) Runtime.initial rfl rfl).2 (Or.inl (by decide))⟩

namespace native_instance_wrapper

theorem PyLong_AsLong_in_range (n : Int) (s : Runtime) (h : LONG_MIN ≤ n ∧ n ≤ LONG_MAX) :
    PyLong_AsLong n s = (n, s) := by
  unfold PyLong_AsLong
  rw [if_pos h]

theorem copy_initialize_Int64_long (api : TypeApi) (n : Int) (s : Runtime) :
    copy_initialize api Ty.Int64 (PyObj.long n) s
      = (.ok (Val.int64 (PyLong_AsLong n s).1), (PyLong_AsLong n s).2) := by
  unfold copy_initialize
  simp [Ty.getTypeCategory]

/-- The element loop over a host tuple of in-range integers stores each
integer and changes nothing else. -/
theorem constructElts_longs (api : TypeApi) (t : List Int)
    (hr : ∀ n ∈ t, LONG_MIN ≤ n ∧ n ≤ LONG_MAX) (s : Runtime) :
    TupleOf.constructElts (t.map PyObj.long).length
        (fun k => copy_initialize api Ty.Int64 ((t.map PyObj.long).get k)) s
      = (.ok (t.map Val.int64), s) := by
  induction t with
  | nil => rfl
  | cons n rest ih =>
    have hn := hr n (List.mem_cons_self n rest)
    have ih2 := ih (fun m hm => hr m (List.mem_cons_of_mem n hm))
    show TupleOf.constructElts ((rest.map PyObj.long).length + 1)
        (fun k => copy_initialize api Ty.Int64 ((PyObj.long n :: rest.map PyObj.long).get k)) s
      = (.ok (Val.int64 n :: rest.map Val.int64), s)
    unfold TupleOf.constructElts
    have h0 : copy_initialize api Ty.Int64
        ((PyObj.long n :: rest.map PyObj.long).get (0 : Fin ((rest.map PyObj.long).length + 1))) s
        = (.ok (Val.int64 n), s) := by
      show copy_initialize api Ty.Int64 (PyObj.long n) s = _
      rw [copy_initialize_Int64_long, PyLong_AsLong_in_range n s hn]
    simp only [h0]
    have h1 : TupleOf.constructElts (rest.map PyObj.long).length
        (fun k => copy_initialize api Ty.Int64
          ((PyObj.long n :: rest.map PyObj.long).get k.succ)) s
        = (.ok (rest.map Val.int64), s) := ih2
    simp only [h1]

/-- What `copy_initialize` leaves in the buffer of a `TupleOf(Int64)` for a
host tuple of in-range integers. -/
theorem copy_initialize_tuple_longs (api : TypeApi) (t : List Int)
    (hr : ∀ n ∈ t, LONG_MIN ≤ n ∧ n ≤ LONG_MAX) (s : Runtime) :
    copy_initialize api (Ty.TupleOf Ty.Int64) (PyObj.tuple (t.map PyObj.long)) s
      = (.ok (Val.tupleOf (t.map Val.int64)), (typeObj api (Ty.TupleOf Ty.Int64) s).2) := by
  unfold copy_initialize
  simp only [Ty.getTypeCategory, reduceCtorEq, if_false, PyObject_TypeCheck,
    TupleOf.constructor]
  rw [constructElts_longs api t hr]

end native_instance_wrapper

/-- Extraction inverts construction inside the range of a `long`: for every
host tuple `t` of integers that fit a signed 64-bit `long`, `initialize`
builds a `TupleOf(Int64)` handle that reads back as `t`: `sq_length` returns
`len(t)` and `sq_item(i)` returns the integer `t[i]` for every
`0 <= i < len(t)`. -/
theorem native_instance_wrapper.tuple_roundtrip (api : TypeApi) (t : List Int)
    (hr : ∀ n ∈ t, LONG_MIN ≤ n ∧ n ≤ LONG_MAX) (kwargs : List (String × PyObj))
    (s : Runtime) :
    ∃ handle s1,
      native_instance_wrapper.initialize_ api (Ty.TupleOf Ty.Int64)
          [PyObj.tuple (t.map PyObj.long)] kwargs s = (.ok handle, s1) ∧
      ∀ (tp : NativeTypeWrapper) (s2 : Runtime),
        (native_instance_wrapper.sq_length { ob_type := tp, mHandle := handle } s2).1
            = some (t.length : Int) ∧
        ∀ (i : Nat) (hi : i < t.length),
          (native_instance_wrapper.sq_item api { ob_type := tp, mHandle := handle } i s2).1
            = some (PyObj.long (t.get ⟨i, hi⟩)) := by
  refine ⟨{ mType := Ty.TupleOf Ty.Int64, m_data := Val.tupleOf (t.map Val.int64),
            mIsInitialized := true }, (native_instance_wrapper.typeObj api
              (Ty.TupleOf Ty.Int64) s).2, ?_, ?_⟩
  · unfold native_instance_wrapper.initialize_
    simp only [Ty.getTypeCategory, if_true,
      native_instance_wrapper.copy_initialize_tuple_longs api t hr s, Handle.new]
  · intro tp s2
    constructor
    · simp [native_instance_wrapper.sq_length, Ty.getTypeCategory, TupleOf.count, Handle.get]
    · intro i hi
      have hcond : ¬ ((i : Int) ≥ ((t.map Val.int64).length : Int) ∨ (i : Int) < 0) := by
        simp only [List.length_map]
        omega
      have h0 : (0 : Int) ≤ (i : Int) := by omega
      simp only [native_instance_wrapper.sq_item, TupleOf.count, Handle.get, hcond, if_false,
        TupleOf.eltPtr, h0, if_true, Int.toNat_ofNat,
        native_instance_wrapper.extractPythonObject, Ty.getTypeCategory, PyLong_FromLong]
      rw [List.getD_eq_getElem _ _ (by simpa using hi)]
      simp [Val.readInt64]

/-- The round trip at the host tuple `(7, -3)`. -/
theorem native_instance_wrapper.tuple_roundtrip_witness :
    ∃ handle s1,
      native_instance_wrapper.initialize_ plainApi (Ty.TupleOf Ty.Int64)
          [PyObj.tuple ([7, -3].map PyObj.long)] [] Runtime.initial = (.ok handle, s1) ∧
      ∀ (tp : NativeTypeWrapper) (s2 : Runtime),
        (native_instance_wrapper.sq_length { ob_type := tp, mHandle := handle } s2).1
            = some (([7, -3] : List Int).length : Int) ∧
        ∀ (i : Nat) (hi : i < ([7, -3] : List Int).length),
          (native_instance_wrapper.sq_item plainApi { ob_type := tp, mHandle := handle } i s2).1
            = some (PyObj.long (([7, -3] : List Int).get ⟨i, hi⟩)) :=
  native_instance_wrapper.tuple_roundtrip plainApi [7, -3] (by decide) [] Runtime.initial

/-- C4, the code at the failing request `TupleOf(Int64)((2^63,))`:
`PyLong_AsLong` answers `-1` for an integer that does not fit a `long` and
sets `OverflowError`; `copy_initialize` stores the `-1` without looking at
the error indicator; `tp_new` returns an instance, not `NULL`, while the
`OverflowError` is still pending; the instance holds `(-1,)`, and its
element 0 reads back as `-1`, not `2^63`. -/
theorem native_instance_wrapper.tuple_overflow_silently_replaced :
    ∃ w s1,
      native_instance_wrapper.tp_new plainApi exampleTupleType
          [PyObj.tuple [PyObj.long (2 ^ 63)]] [] Runtime.initial
        = (some (PyObj.native w), s1) ∧
      s1.err = some ⟨PyExc.OverflowError, "Python int too large to convert to C long"⟩ ∧
      w.mHandle.mIsInitialized = true ∧
      w.mHandle.m_data = Val.tupleOf [Val.int64 (-1)] ∧
      (native_instance_wrapper.sq_length w s1).1 = some 1 ∧
      (native_instance_wrapper.sq_item plainApi w 0 s1).1 = some (PyObj.long (-1)) ∧
      (native_instance_wrapper.sq_item plainApi w 0 s1).1 ≠ some (PyObj.long (2 ^ 63)) := by
  refine ⟨_, _, rfl, rfl, rfl, rfl, rfl, rfl, ?_⟩
  intro h
  have h2 : (some (PyObj.long (-1)) : Option PyObj) = some (PyObj.long (2 ^ 63)) := h
  simp at h2

/-! ## Theorems: failures of `tp_new` -/

namespace native_instance_wrapper

theorem copy_initialize_Int64_not_long (api : TypeApi) (py : PyObj) (s : Runtime)
    (h : PyLong_Check py = false) :
    copy_initialize api Ty.Int64 py s
      = (.error (CppException.logic_error
          ("Can't initialize an int64 from an instance of " ++ py.tp_name)), s) := by
  unfold copy_initialize
  cases py with
  | long n => simp [PyLong_Check] at h
  | tuple items => simp [Ty.getTypeCategory]
  | native w => simp [Ty.getTypeCategory]
  | other n => simp [Ty.getTypeCategory]

/-- The element loop of a `TupleOf(Int64)` stops at the first element that
is not a host integer, with the exception that names the element's class. -/
theorem constructElts_not_long (api : TypeApi) (items : List PyObj)
    (h : ∃ x ∈ items, PyLong_Check x = false) (s : Runtime) :
    ∃ x ∈ items, PyLong_Check x = false ∧ ∃ s1,
      TupleOf.constructElts items.length
          (fun k => copy_initialize api Ty.Int64 (items.get k)) s
        = (.error (CppException.logic_error
            ("Can't initialize an int64 from an instance of " ++ x.tp_name)), s1) := by
  induction items generalizing s with
  | nil =>
    obtain ⟨x, hx, _⟩ := h
    simp at hx
  | cons a rest ih =>
    by_cases ha : PyLong_Check a = false
    · refine ⟨a, List.mem_cons_self a rest, ha, s, ?_⟩
      show TupleOf.constructElts (rest.length + 1)
          (fun k => copy_initialize api Ty.Int64 ((a :: rest).get k)) s = _
      unfold TupleOf.constructElts
      have h0 : copy_initialize api Ty.Int64
          ((a :: rest).get (0 : Fin (rest.length + 1))) s
          = (.error (CppException.logic_error
              ("Can't initialize an int64 from an instance of " ++ a.tp_name)), s) :=
        copy_initialize_Int64_not_long api a s ha
      simp only [h0]
    · have hrest : ∃ x ∈ rest, PyLong_Check x = false := by
        obtain ⟨x, hx, hxl⟩ := h
        rcases List.mem_cons.mp hx with hxa | hxr
        · rw [hxa] at hxl
          exact absurd hxl ha
        · exact ⟨x, hxr, hxl⟩
      cases a with
      | long n =>
        obtain ⟨x, hx, hxl, s1, hs1⟩ := ih hrest (PyLong_AsLong n s).2
        refine ⟨x, List.mem_cons_of_mem _ hx, hxl, s1, ?_⟩
        show TupleOf.constructElts (rest.length + 1)
            (fun k => copy_initialize api Ty.Int64 ((PyObj.long n :: rest).get k)) s = _
        unfold TupleOf.constructElts
        have h0 : copy_initialize api Ty.Int64
            ((PyObj.long n :: rest).get (0 : Fin (rest.length + 1))) s
            = (.ok (Val.int64 (PyLong_AsLong n s).1), (PyLong_AsLong n s).2) :=
          copy_initialize_Int64_long api n s
        simp only [h0]
        have h1 : TupleOf.constructElts rest.length
            (fun k => copy_initialize api Ty.Int64 ((PyObj.long n :: rest).get k.succ))
            (PyLong_AsLong n s).2
            = (.error (CppException.logic_error
                ("Can't initialize an int64 from an instance of " ++ x.tp_name)), s1) := hs1
        simp only [h1]
      | tuple items => simp [PyLong_Check] at ha
      | native w => simp [PyLong_Check] at ha
      | other n => simp [PyLong_Check] at ha

/-- `tp_new` turns every exception of `initialize` into `TypeError` with
the exception's text, and returns `NULL`. -/
theorem tp_new_of_error (api : TypeApi) (subtype : NativeTypeWrapper) (args : List PyObj)
    (kwds : List (String × PyObj)) (s s1 : Runtime) (e : CppException)
    (h : initialize_ api subtype.mType args kwds s = (.error e, s1)) :
    tp_new api subtype args kwds s = (none, PyErr_SetString PyExc.TypeError e.what s1) := by
  unfold tp_new
  rw [h]

theorem initialize_wrong_count (api : TypeApi) (elt : Ty) (args : List PyObj)
    (kwds : List (String × PyObj)) (s : Runtime) (h : args.length ≠ 1) :
    initialize_ api (Ty.TupleOf elt) args kwds s
      = (.error (CppException.runtime_error "wrong argument count"), s) := by
  unfold initialize_
  match args, h with
  | [], _ => rfl
  | [a], h => exact absurd rfl h
  | _ :: _ :: _, _ => rfl

theorem initialize_not_tuple (api : TypeApi) (elt : Ty) (a : PyObj)
    (kwds : List (String × PyObj)) (s : Runtime) (ht : PyTuple_Check a = false)
    (hi : PyObject_TypeCheck a (typeObj api (Ty.TupleOf elt) s).1 = none) :
    initialize_ api (Ty.TupleOf elt) [a] kwds s
      = (.error (CppException.runtime_error "wanted a tuple"),
          (typeObj api (Ty.TupleOf elt) s).2) := by
  have hc : copy_initialize api (Ty.TupleOf elt) a s
      = (.error (CppException.runtime_error "wanted a tuple"),
          (typeObj api (Ty.TupleOf elt) s).2) := by
    unfold copy_initialize
    simp only [Ty.getTypeCategory, reduceCtorEq, if_false, hi]
    cases a with
    | tuple items => simp [PyTuple_Check] at ht
    | long n => rfl
    | native w => rfl
    | other n => rfl
  unfold initialize_
  simp only [Ty.getTypeCategory, if_true, hc]
  rfl

end native_instance_wrapper

/-- C5. `tp_new` of a `TupleOf(Int64)` type returns `NULL` with a
`TypeError` whose text describes the mismatch whenever the argument count is
not 1 ("wrong argument count"), or the one argument is neither a host tuple
nor an instance of the target type ("wanted a tuple"), or some element of
the host tuple is not a host integer ("Can't initialize an int64 from an
instance of" followed by the class name of such an element). -/
theorem native_instance_wrapper.tp_new_shape_mismatch (api : TypeApi)
    (subtype : NativeTypeWrapper) (args : List PyObj) (kwds : List (String × PyObj))
    (s : Runtime) (hT : subtype.mType = Ty.TupleOf Ty.Int64) :
    (args.length ≠ 1 →
      native_instance_wrapper.tp_new api subtype args kwds s
        = (none, PyErr_SetString PyExc.TypeError "wrong argument count" s)) ∧
    (∀ a, args = [a] → PyTuple_Check a = false →
      PyObject_TypeCheck a
          (native_instance_wrapper.typeObj api (Ty.TupleOf Ty.Int64) s).1 = none →
      native_instance_wrapper.tp_new api subtype args kwds s
        = (none, PyErr_SetString PyExc.TypeError "wanted a tuple"
            (native_instance_wrapper.typeObj api (Ty.TupleOf Ty.Int64) s).2)) ∧
    (∀ items, args = [PyObj.tuple items] → (∃ x ∈ items, PyLong_Check x = false) →
      (native_instance_wrapper.tp_new api subtype args kwds s).1 = none ∧
      ∃ x ∈ items, PyLong_Check x = false ∧
        (native_instance_wrapper.tp_new api subtype args kwds s).2.err
          = some ⟨PyExc.TypeError,
              "Can't initialize an int64 from an instance of " ++ x.tp_name⟩) := by
  refine ⟨?_, ?_, ?_⟩
  · intro h
    have hi := native_instance_wrapper.initialize_wrong_count api Ty.Int64 args kwds s h
    rw [← hT] at hi
    rw [native_instance_wrapper.tp_new_of_error api subtype args kwds s s _ hi]
    rfl
  · intro a ha ht hc
    have hi := native_instance_wrapper.initialize_not_tuple api Ty.Int64 a kwds s ht hc
    rw [← hT, ← ha] at hi
    rw [native_instance_wrapper.tp_new_of_error api subtype args kwds s _ _ hi, hT]
    rfl
  · intro items ha hx
    obtain ⟨x, hxm, hxl, s1, hs1⟩ := native_instance_wrapper.constructElts_not_long api items hx
      (native_instance_wrapper.typeObj api (Ty.TupleOf Ty.Int64) s).2
    have hc : native_instance_wrapper.copy_initialize api (Ty.TupleOf Ty.Int64)
        (PyObj.tuple items) s
        = (.error (CppException.logic_error
            ("Can't initialize an int64 from an instance of " ++ x.tp_name)), s1) := by
      unfold native_instance_wrapper.copy_initialize
      simp only [Ty.getTypeCategory, reduceCtorEq, if_false, PyObject_TypeCheck,
        TupleOf.constructor, hs1]
    have hi : native_instance_wrapper.initialize_ api subtype.mType args kwds s
        = (.error (CppException.logic_error
            ("Can't initialize an int64 from an instance of " ++ x.tp_name)),
            (Handle.new (Ty.TupleOf Ty.Int64)).dtor s1) := by
      rw [hT, ha]
      unfold native_instance_wrapper.initialize_
      simp only [Ty.getTypeCategory, if_true, hc]
    rw [native_instance_wrapper.tp_new_of_error api subtype args kwds s _ _ hi]
    exact ⟨rfl, x, hxm, hxl, rfl⟩

/-- C5 at the `TupleOf(Int64)` wrapper type: no argument, the one argument
a `float`, and the host tuple `(1, "a")`. -/
theorem native_instance_wrapper.tp_new_shape_mismatch_witness :
    native_instance_wrapper.tp_new plainApi exampleTupleType [] [] Runtime.initial
        = (none, PyErr_SetString PyExc.TypeError "wrong argument count" Runtime.initial) ∧
    native_instance_wrapper.tp_new plainApi exampleTupleType [PyObj.other "float"] []
          Runtime.initial
        = (none, PyErr_SetString PyExc.TypeError "wanted a tuple"
            (native_instance_wrapper.typeObj plainApi (Ty.TupleOf Ty.Int64)
              Runtime.initial).2) ∧
    ((native_instance_wrapper.tp_new plainApi exampleTupleType
          [PyObj.tuple [PyObj.long 1, PyObj.other "str"]] [] Runtime.initial).1 = none ∧
      ∃ x ∈ [PyObj.long 1, PyObj.other "str"], PyLong_Check x = false ∧
        (native_instance_wrapper.tp_new plainApi exampleTupleType
            [PyObj.tuple [PyObj.long 1, PyObj.other "str"]] [] Runtime.initial).2.err
          = some ⟨PyExc.TypeError,
              "Can't initialize an int64 from an instance of " ++ x.tp_name⟩) :=
  ⟨(native_instance_wrapper.tp_new_shape_mismatch plainApi exampleTupleType [] []
      Runtime.initial rfl).1 (by decide),
   (native_instance_wrapper.tp_new_shape_mismatch plainApi exampleTupleType
      [PyObj.other "float"] [] Runtime.initial rfl).2.1 _ rfl rfl rfl,
   (native_instance_wrapper.tp_new_shape_mismatch plainApi exampleTupleType
      [PyObj.tuple [PyObj.long 1, PyObj.other "str"]] [] Runtime.initial rfl).2.2 _ rfl
      ⟨PyObj.other "str", by simp, rfl⟩⟩

namespace native_instance_wrapper

/-- The final fall-through of `copy_initialize`: a category that is neither
`Int64` nor `TupleOf`, and a source that is not an instance of the target. -/
theorem copy_initialize_fall_through (api : TypeApi) (eltType : Ty) (py : PyObj) (s : Runtime)
    (h1 : eltType.getTypeCategory ≠ TypeCategory.catInt64)
    (h2 : eltType.getTypeCategory ≠ TypeCategory.catTupleOf)
    (hi : PyObject_TypeCheck py (typeObj api eltType s).1 = none) :
    copy_initialize api eltType py s
      = (.error (CppException.logic_error "Couldn't initialize internal elt."),
          (typeObj api eltType s).2) := by
  unfold copy_initialize
  cases eltType with
  | Int64 => simp [Ty.getTypeCategory] at h1
  | TupleOf elt => simp [Ty.getTypeCategory] at h2
  | None => simp only [Ty.getTypeCategory, reduceCtorEq, if_false, hi]
  | Int8 => simp only [Ty.getTypeCategory, reduceCtorEq, if_false, hi]
  | Float64 => simp only [Ty.getTypeCategory, reduceCtorEq, if_false, hi]

theorem initialize_unknown (api : TypeApi) (t : Ty) (args : List PyObj)
    (kwds : List (String × PyObj)) (s : Runtime)
    (h : t.getTypeCategory ≠ TypeCategory.catTupleOf) :
    initialize_ api t args kwds s = (.error (CppException.logic_error "Unknown"), s) := by
  unfold initialize_
  simp only [h, if_false]
  rfl

/-- An exception that leaves the element loop is the exception of one of
the allocator calls, unchanged. -/
theorem constructElts_error (count : Nat) (allocator : Fin count → Runtime → Thrown Val)
    (s s1 : Runtime) (e : CppException)
    (h : TupleOf.constructElts count allocator s = (.error e, s1)) :
    ∃ k sk, allocator k sk = (.error e, s1) := by
  induction count generalizing s with
  | zero => simp [TupleOf.constructElts] at h
  | succ n ih =>
    unfold TupleOf.constructElts at h
    cases h0 : allocator 0 s with
    | mk r s2 =>
      rw [h0] at h
      cases r with
      | error e2 =>
        simp only [Prod.mk.injEq, Except.error.injEq] at h
        exact ⟨0, s, by rw [h0, h.1, h.2]⟩
      | ok v =>
        simp only at h
        cases h1 : TupleOf.constructElts n (fun k => allocator k.succ) s2 with
        | mk r2 s3 =>
          rw [h1] at h
          cases r2 with
          | error e2 =>
            simp only [Prod.mk.injEq, Except.error.injEq] at h
            obtain ⟨k, sk, hk⟩ := ih (fun k => allocator k.succ) s2 (by rw [h1, h.1, h.2])
            exact ⟨k.succ, sk, hk⟩
          | ok vs => simp at h

/-- Every exception of `copy_initialize`, at any nesting depth of the target
type, is that of one of its `throw` statements or one thrown by the
`copy_constructor` of a `Type`. -/
theorem copy_initialize_throws (api : TypeApi) (eltType : Ty) (py : PyObj) (s s1 : Runtime)
    (e : CppException) (h : copy_initialize api eltType py s = (.error e, s1)) :
    e = CppException.logic_error "Couldn't initialize internal elt." ∨
      e = CppException.runtime_error "wanted a tuple" ∨ e.notAnInt ∨
      ∃ t v, api.copy_constructor t v = .error e := by
  induction eltType generalizing py s s1 with
  | Int64 =>
    unfold copy_initialize at h
    cases py with
    | long n => simp [Ty.getTypeCategory] at h
    | tuple items =>
      simp only [Ty.getTypeCategory, if_true, Prod.mk.injEq, Except.error.injEq] at h
      exact Or.inr (Or.inr (Or.inl ⟨_, h.1.symm⟩))
    | native w =>
      simp only [Ty.getTypeCategory, if_true, Prod.mk.injEq, Except.error.injEq] at h
      exact Or.inr (Or.inr (Or.inl ⟨_, h.1.symm⟩))
    | other n =>
      simp only [Ty.getTypeCategory, if_true, Prod.mk.injEq, Except.error.injEq] at h
      exact Or.inr (Or.inr (Or.inl ⟨_, h.1.symm⟩))
  | TupleOf elt ih =>
    unfold copy_initialize at h
    simp only [Ty.getTypeCategory, reduceCtorEq, if_false] at h
    cases hc : PyObject_TypeCheck py (typeObj api (Ty.TupleOf elt) s).1 with
    | some w =>
      rw [hc] at h
      simp only [Prod.mk.injEq] at h
      exact Or.inr (Or.inr (Or.inr ⟨_, _, h.1⟩))
    | none =>
      rw [hc] at h
      cases py with
      | tuple items =>
        simp only [TupleOf.constructor] at h
        cases hr : TupleOf.constructElts items.length
            (fun k => copy_initialize api elt (items.get k))
            (typeObj api (Ty.TupleOf elt) s).2 with
        | mk r s2 =>
          rw [hr] at h
          cases r with
          | ok vs => simp at h
          | error e2 =>
            simp only [Prod.mk.injEq, Except.error.injEq] at h
            obtain ⟨k, sk, hk⟩ := constructElts_error _ _ _ _ _ hr
            rw [h.1] at hk
            exact ih _ _ _ hk
      | long n =>
        simp only [Prod.mk.injEq, Except.error.injEq] at h
        exact Or.inr (Or.inl h.1.symm)
      | native w =>
        simp only [Prod.mk.injEq, Except.error.injEq] at h
        exact Or.inr (Or.inl h.1.symm)
      | other n =>
        simp only [Prod.mk.injEq, Except.error.injEq] at h
        exact Or.inr (Or.inl h.1.symm)
  | None =>
    unfold copy_initialize at h
    simp only [Ty.getTypeCategory, reduceCtorEq, if_false] at h
    cases hc : PyObject_TypeCheck py (typeObj api Ty.None s).1 with
    | some w =>
      rw [hc] at h
      simp only [Prod.mk.injEq] at h
      exact Or.inr (Or.inr (Or.inr ⟨_, _, h.1⟩))
    | none =>
      rw [hc] at h
      simp only [Prod.mk.injEq, Except.error.injEq] at h
      exact Or.inl h.1.symm
  | Int8 =>
    unfold copy_initialize at h
    simp only [Ty.getTypeCategory, reduceCtorEq, if_false] at h
    cases hc : PyObject_TypeCheck py (typeObj api Ty.Int8 s).1 with
    | some w =>
      rw [hc] at h
      simp only [Prod.mk.injEq] at h
      exact Or.inr (Or.inr (Or.inr ⟨_, _, h.1⟩))
    | none =>
      rw [hc] at h
      simp only [Prod.mk.injEq, Except.error.injEq] at h
      exact Or.inl h.1.symm
  | Float64 =>
    unfold copy_initialize at h
    simp only [Ty.getTypeCategory, reduceCtorEq, if_false] at h
    cases hc : PyObject_TypeCheck py (typeObj api Ty.Float64 s).1 with
    | some w =>
      rw [hc] at h
      simp only [Prod.mk.injEq] at h
      exact Or.inr (Or.inr (Or.inr ⟨_, _, h.1⟩))
    | none =>
      rw [hc] at h
      simp only [Prod.mk.injEq, Except.error.injEq] at h
      exact Or.inl h.1.symm

/-- Every exception of `initialize` is an unsupported conversion, a shape
mismatch, a source that is not an `int`, or one thrown by a
`copy_constructor`. -/
theorem initialize_throws (api : TypeApi) (t : Ty) (args : List PyObj)
    (kwargs : List (String × PyObj)) (s s1 : Runtime) (e : CppException)
    (h : initialize_ api t args kwargs s = (.error e, s1)) :
    e.unsupportedConversion = true ∨ e.shapeMismatch = true ∨ e.notAnInt ∨
      ∃ t2 v, api.copy_constructor t2 v = .error e := by
  unfold initialize_ at h
  simp only at h
  split at h
  · split at h
    · rename_i argTuple
      cases hr : copy_initialize api t argTuple s with
      | mk r s2 =>
        rw [hr] at h
        cases r with
        | ok v => simp at h
        | error e2 =>
          simp only [Prod.mk.injEq, Except.error.injEq] at h
          rw [h.1] at hr
          rcases copy_initialize_throws api t argTuple s s2 e hr with h1 | h1 | h1 | h1
          · exact Or.inl (by rw [h1]; decide)
          · exact Or.inr (Or.inl (by rw [h1]; decide))
          · exact Or.inr (Or.inr (Or.inl h1))
          · exact Or.inr (Or.inr (Or.inr h1))
    · simp only [Prod.mk.injEq, Except.error.injEq] at h
      exact Or.inr (Or.inl (by rw [← h.1]; decide))
  · simp only [Prod.mk.injEq, Except.error.injEq] at h
    exact Or.inl (by rw [← h.1]; decide)

end native_instance_wrapper

/-- C6 (amended). For every construction request that fails, `tp_new`
returns `NULL` and sets `TypeError` with the text of the exception that
`initialize` threw, whatever its C++ class and at whatever nesting depth it
was thrown; that exception is an unsupported conversion, a shape mismatch, a
source that is not an `int`, or one thrown by a `copy_constructor`.  So an
unsupported conversion and a shape mismatch reach the host caller with the
same exception class, `TypeError`, and differ in the message only.  The
unsupported conversions are thrown by `initialize` on a `Type` that is not a
`TupleOf` and by the final fall-through of `copy_initialize`, for any call
of it; the shape mismatches by a wrong argument count and by a source that
is not a tuple. -/
theorem native_instance_wrapper.tp_new_failures_are_TypeError (api : TypeApi)
    (subtype : NativeTypeWrapper) (args : List PyObj) (kwds : List (String × PyObj))
    (s : Runtime) :
    (∀ e s1, native_instance_wrapper.initialize_ api subtype.mType args kwds s
        = (.error e, s1) →
      native_instance_wrapper.tp_new api subtype args kwds s
          = (none, PyErr_SetString PyExc.TypeError e.what s1) ∧
        (e.unsupportedConversion = true ∨ e.shapeMismatch = true ∨ e.notAnInt ∨
          ∃ t v, api.copy_constructor t v = .error e)) ∧
    (∀ (eU eM : CppException) (sU sM : Runtime),
      eU.unsupportedConversion = true → eM.shapeMismatch = true →
      (PyErr_SetString PyExc.TypeError eU.what sU).err.map PyErr.type
          = (PyErr_SetString PyExc.TypeError eM.what sM).err.map PyErr.type ∧
        (PyErr_SetString PyExc.TypeError eU.what sU).err
          ≠ (PyErr_SetString PyExc.TypeError eM.what sM).err) ∧
    (subtype.mType.getTypeCategory ≠ TypeCategory.catTupleOf →
      native_instance_wrapper.initialize_ api subtype.mType args kwds s
        = (.error (CppException.logic_error "Unknown"), s)) ∧
    (∀ (eltType : Ty) (py : PyObj) (s0 : Runtime),
      eltType.getTypeCategory ≠ TypeCategory.catInt64 →
      eltType.getTypeCategory ≠ TypeCategory.catTupleOf →
      PyObject_TypeCheck py (native_instance_wrapper.typeObj api eltType s0).1 = none →
      native_instance_wrapper.copy_initialize api eltType py s0
        = (.error (CppException.logic_error "Couldn't initialize internal elt."),
            (native_instance_wrapper.typeObj api eltType s0).2)) ∧
    (∀ elt, subtype.mType = Ty.TupleOf elt → args.length ≠ 1 →
      native_instance_wrapper.initialize_ api subtype.mType args kwds s
        = (.error (CppException.runtime_error "wrong argument count"), s)) ∧
    (∀ elt a, subtype.mType = Ty.TupleOf elt → args = [a] → PyTuple_Check a = false →
      PyObject_TypeCheck a
          (native_instance_wrapper.typeObj api (Ty.TupleOf elt) s).1 = none →
      native_instance_wrapper.initialize_ api subtype.mType args kwds s
        = (.error (CppException.runtime_error "wanted a tuple"),
            (native_instance_wrapper.typeObj api (Ty.TupleOf elt) s).2)) := by
  refine ⟨?_, ?_, ?_, ?_, ?_, ?_⟩
  · intro e s1 h
    exact ⟨native_instance_wrapper.tp_new_of_error api subtype args kwds s s1 e h,
      native_instance_wrapper.initialize_throws api _ args kwds s s1 e h⟩
  · intro eU eM sU sM hU hM
    refine ⟨rfl, ?_⟩
    simp only [CppException.unsupportedConversion, Bool.or_eq_true, decide_eq_true_eq] at hU
    simp only [CppException.shapeMismatch, Bool.or_eq_true, decide_eq_true_eq] at hM
    rcases hU with hU | hU <;> rcases hM with hM | hM <;> rw [hU, hM] <;>
      simp [PyErr_SetString, CppException.what]
  · intro h
    exact native_instance_wrapper.initialize_unknown api _ args kwds s h
  · intro eltType py s0 h1 h2 hi
    exact native_instance_wrapper.copy_initialize_fall_through api eltType py s0 h1 h2 hi
  · intro elt hT h
    rw [hT]
    exact native_instance_wrapper.initialize_wrong_count api elt args kwds s h
  · intro elt a hT ha ht hc
    rw [hT, ha]
    exact native_instance_wrapper.initialize_not_tuple api elt a kwds s ht hc

/-- C6 (amended) at concrete requests.  The unsupported conversions
`Int8(1)`, `TupleOf(Int8)((1,))` and, one level deeper,
`TupleOf(TupleOf(Int8))(((1,),))`, and the shape mismatches
`TupleOf(Int64)()` and `TupleOf(Int64)(1.5)`, all return `NULL` with
`TypeError`; the class is the same and the error set differs. -/
theorem native_instance_wrapper.tp_new_failures_are_TypeError_witness :
    native_instance_wrapper.tp_new plainApi exampleInt8Type [PyObj.long 1] [] Runtime.initial
        = (none, PyErr_SetString PyExc.TypeError "Unknown" Runtime.initial) ∧
    native_instance_wrapper.tp_new plainApi exampleTupleInt8Type
          [PyObj.tuple [PyObj.long 1]] [] Runtime.initial
        = (none, PyErr_SetString PyExc.TypeError "Couldn't initialize internal elt."
            (native_instance_wrapper.initialize_ plainApi (Ty.TupleOf Ty.Int8)
              [PyObj.tuple [PyObj.long 1]] [] Runtime.initial).2) ∧
    native_instance_wrapper.tp_new plainApi exampleNestedInt8Type
          [PyObj.tuple [PyObj.tuple [PyObj.long 1]]] [] Runtime.initial
        = (none, PyErr_SetString PyExc.TypeError "Couldn't initialize internal elt."
            (native_instance_wrapper.initialize_ plainApi (Ty.TupleOf (Ty.TupleOf Ty.Int8))
              [PyObj.tuple [PyObj.tuple [PyObj.long 1]]] [] Runtime.initial).2) ∧
    native_instance_wrapper.tp_new plainApi exampleTupleType [] [] Runtime.initial
        = (none, PyErr_SetString PyExc.TypeError "wrong argument count" Runtime.initial) ∧
    native_instance_wrapper.tp_new plainApi exampleTupleType [PyObj.other "float"] []
          Runtime.initial
        = (none, PyErr_SetString PyExc.TypeError "wanted a tuple"
            (native_instance_wrapper.typeObj plainApi (Ty.TupleOf Ty.Int64)
              Runtime.initial).2) ∧
    ((PyErr_SetString PyExc.TypeError
          (CppException.logic_error "Couldn't initialize internal elt.").what
          Runtime.initial).err.map PyErr.type
        = (PyErr_SetString PyExc.TypeError
            (CppException.runtime_error "wanted a tuple").what
            Runtime.initial).err.map PyErr.type ∧
      (PyErr_SetString PyExc.TypeError
          (CppException.logic_error "Couldn't initialize internal elt.").what
          Runtime.initial).err
        ≠ (PyErr_SetString PyExc.TypeError
            (CppException.runtime_error "wanted a tuple").what Runtime.initial).err) :=
  ⟨((native_instance_wrapper.tp_new_failures_are_TypeError plainApi exampleInt8Type
      [PyObj.long 1] [] Runtime.initial).1 (CppException.logic_error "Unknown") _
      ((native_instance_wrapper.tp_new_failures_are_TypeError plainApi exampleInt8Type
        [PyObj.long 1] [] Runtime.initial).2.2.1 (by decide))).1,
   ((native_instance_wrapper.tp_new_failures_are_TypeError plainApi exampleTupleInt8Type
      [PyObj.tuple [PyObj.long 1]] [] Runtime.initial).1
      (CppException.logic_error "Couldn't initialize internal elt.") _ rfl).1,
   ((native_instance_wrapper.tp_new_failures_are_TypeError plainApi exampleNestedInt8Type
      [PyObj.tuple [PyObj.tuple [PyObj.long 1]]] [] Runtime.initial).1
      (CppException.logic_error "Couldn't initialize internal elt.") _ rfl).1,
   ((native_instance_wrapper.tp_new_failures_are_TypeError plainApi exampleTupleType
      [] [] Runtime.initial).1 (CppException.runtime_error "wrong argument count") _
      ((native_instance_wrapper.tp_new_failures_are_TypeError plainApi exampleTupleType
        [] [] Runtime.initial).2.2.2.2.1 Ty.Int64 rfl (by decide))).1,
   ((native_instance_wrapper.tp_new_failures_are_TypeError plainApi exampleTupleType
      [PyObj.other "float"] [] Runtime.initial).1
      (CppException.runtime_error "wanted a tuple") _
      ((native_instance_wrapper.tp_new_failures_are_TypeError plainApi exampleTupleType
        [PyObj.other "float"] [] Runtime.initial).2.2.2.2.2 Ty.Int64 (PyObj.other "float")
        rfl rfl rfl rfl)).1,
   (native_instance_wrapper.tp_new_failures_are_TypeError plainApi exampleTupleType
      [] [] Runtime.initial).2.1
      (CppException.logic_error "Couldn't initialize internal elt.")
      (CppException.runtime_error "wanted a tuple") Runtime.initial Runtime.initial
      (by decide) (by decide)⟩

/-- C6 as stated fails: the unsupported conversion `Int8(1)` and the shape
mismatch `TupleOf(Int64)()` reach the host caller with the same exception
class, `TypeError`. -/
theorem native_instance_wrapper.unsupported_conversion_same_class :
    native_instance_wrapper.tp_new plainApi exampleInt8Type [PyObj.long 1] [] Runtime.initial
        = (none, { Runtime.initial with err := some ⟨PyExc.TypeError, "Unknown"⟩ }) ∧
    native_instance_wrapper.tp_new plainApi exampleTupleType [] [] Runtime.initial
        = (none, { Runtime.initial with
            err := some ⟨PyExc.TypeError, "wrong argument count"⟩ }) ∧
    ¬ ((native_instance_wrapper.tp_new plainApi exampleInt8Type [PyObj.long 1] []
            Runtime.initial).2.err.map PyErr.type
        ≠ (native_instance_wrapper.tp_new plainApi exampleTupleType [] []
            Runtime.initial).2.err.map PyErr.type) :=
  ⟨rfl, rfl, fun h => h rfl⟩

/-! ## Theorems: the initialization flag -/

namespace native_instance_wrapper

theorem initialize_ok (api : TypeApi) (t : Ty) (args : List PyObj)
    (kwargs : List (String × PyObj)) (s s1 : Runtime) (handle : Handle)
    (h : initialize_ api t args kwargs s = (.ok handle, s1)) :
    handle.mIsInitialized = true ∧ handle.mType = t ∧
      ∃ a, args = [a] ∧ copy_initialize api t a s = (.ok handle.m_data, s1) := by
  unfold initialize_ at h
  simp only at h
  split at h
  · split at h
    · rename_i argTuple
      cases hr : copy_initialize api t argTuple s with
      | mk r s2 =>
        rw [hr] at h
        cases r with
        | error e => simp at h
        | ok v =>
          simp only [Prod.mk.injEq, Except.ok.injEq] at h
          obtain ⟨hh, hs⟩ := h
          subst hh
          subst hs
          exact ⟨rfl, rfl, argTuple, rfl, hr⟩
    · simp at h
  · simp at h

/-- `tp_new` hands out only instances whose category is `TupleOf`: for every
other category `initialize` throws before a handle is returned. -/
theorem tp_new_category (api : TypeApi) (subtype : NativeTypeWrapper) (args : List PyObj)
    (kwds : List (String × PyObj)) (s s1 : Runtime) (w : native_instance_wrapper)
    (h : tp_new api subtype args kwds s = (some (PyObj.native w), s1)) :
    w.mHandle.mType.getTypeCategory = TypeCategory.catTupleOf := by
  unfold tp_new at h
  cases hi : initialize_ api subtype.mType args kwds s with
  | mk r s2 =>
    rw [hi] at h
    cases r with
    | error e => simp at h
    | ok handle =>
      simp only [Prod.mk.injEq, Option.some.injEq, PyObj.native.injEq] at h
      have hok := initialize_ok api _ args kwds s s2 handle hi
      by_contra hc
      have hm : w.mHandle.mType = subtype.mType := by
        rw [← h.1]
        exact hok.2.1
      rw [hm] at hc
      rw [initialize_unknown api _ args kwds s hc] at hi
      simp at hi

theorem extractPythonObject_native (api : TypeApi) (data : Val) (eltType : Ty)
    (s s1 : Runtime) (w : native_instance_wrapper)
    (h : extractPythonObject api data eltType s = (some (PyObj.native w), s1)) :
    w.mHandle.mIsInitialized = true ∧ w.mHandle.mType = eltType ∧
      api.copy_constructor eltType data = .ok w.mHandle.m_data := by
  unfold extractPythonObject at h
  split at h
  · simp [PyLong_FromLong] at h
  · cases hc : api.copy_constructor eltType data with
    | error e =>
      rw [hc] at h
      simp at h
    | ok v =>
      rw [hc] at h
      simp only [Handle.new, Prod.mk.injEq, Option.some.injEq, PyObj.native.injEq] at h
      obtain ⟨hw, _⟩ := h
      subst hw
      exact ⟨rfl, rfl, rfl⟩

theorem extractPythonObject_null (api : TypeApi) (data : Val) (eltType : Ty)
    (s s1 : Runtime) (h : extractPythonObject api data eltType s = (none, s1)) :
    ∃ e, api.copy_constructor eltType data = .error e := by
  unfold extractPythonObject at h
  split at h
  · simp at h
  · cases hc : api.copy_constructor eltType data with
    | error e => exact ⟨e, rfl⟩
    | ok v =>
      rw [hc] at h
      simp at h

end native_instance_wrapper

/-- C8. Destroy is gated by the initialization flag.  (1) `~Handle()` calls
the type's `destroy` on the buffer, once, exactly when `mIsInitialized` is
set.  (2) A handle returned by `initialize` has the flag set and holds what a
successful `copy_initialize` left in it; when `initialize` throws, no
`destroy` has run.  (3) An instance returned by `extractPythonObject` has the
flag set and holds what a successful `copy_constructor` wrote; when it
returns `NULL` the copy construction failed and no `destroy` has run.
(4) `tp_new` hands out an instance only with the flag set, runs no `destroy`
itself, and releasing the instance runs `destroy` on its buffer exactly once;
when `tp_new` fails it returns `NULL` and no `destroy` has run. -/
theorem Handle.destroy_gated (api : TypeApi) :
    (∀ (h : Handle) (s : Runtime),
      (h.dtor s).log
        = if h.mIsInitialized then s.log ++ [Event.destroy h.mType h.m_data] else s.log) ∧
    (∀ (t : Ty) (args : List PyObj) (kwargs : List (String × PyObj)) (s : Runtime),
      match native_instance_wrapper.initialize_ api t args kwargs s with
      | (Except.ok handle, s1) =>
        handle.mIsInitialized = true ∧ s1.log = s.log ∧
          ∃ a, args = [a] ∧
            native_instance_wrapper.copy_initialize api t a s = (.ok handle.m_data, s1)
      | (Except.error _, s1) => s1.log = s.log) ∧
    (∀ (data : Val) (eltType : Ty) (s : Runtime),
      match native_instance_wrapper.extractPythonObject api data eltType s with
      | (some (PyObj.native w), s1) =>
        w.mHandle.mIsInitialized = true ∧ s1.log = s.log ∧
          api.copy_constructor eltType data = .ok w.mHandle.m_data
      | (some _, s1) => s1.log = s.log
      | (none, s1) => s1.log = s.log ∧ ∃ e, api.copy_constructor eltType data = .error e) ∧
    (∀ (subtype : NativeTypeWrapper) (args : List PyObj) (kwds : List (String × PyObj))
        (s : Runtime),
      match native_instance_wrapper.tp_new api subtype args kwds s with
      | (some (PyObj.native w), s1) =>
        w.mHandle.mIsInitialized = true ∧ s1.log = s.log ∧
          ∀ s2 : Runtime, (native_instance_wrapper.tp_dealloc w s2).log
            = s2.log ++ [Event.destroy w.mHandle.mType w.mHandle.m_data]
      | (some _, _) => False
      | (none, s1) => s1.log = s.log) := by
  refine ⟨?_, ?_, ?_, ?_⟩
  · intro h s
    unfold Handle.dtor
    split <;> rfl
  · intro t args kwargs s
    have hlog := native_instance_wrapper.initialize_log api t args kwargs s
    split
    · rename_i handle s1 heq
      rw [heq] at hlog
      have hok := native_instance_wrapper.initialize_ok api t args kwargs s s1 handle heq
      exact ⟨hok.1, hlog, hok.2.2⟩
    · rename_i e s1 heq
      rw [heq] at hlog
      exact hlog
  · intro data eltType s
    have hlog := native_instance_wrapper.extractPythonObject_log api data eltType s
    split
    · rename_i w s1 heq
      rw [heq] at hlog
      have hok := native_instance_wrapper.extractPythonObject_native api data eltType s s1 w heq
      exact ⟨hok.1, hlog, hok.2.2⟩
    · rename_i o s1 _ heq
      rw [heq] at hlog
      exact hlog
    · rename_i s1 heq
      rw [heq] at hlog
      exact ⟨hlog, native_instance_wrapper.extractPythonObject_null api data eltType s s1 heq⟩
  · intro subtype args kwds s
    have hlog := native_instance_wrapper.initialize_log api subtype.mType args kwds s
    unfold native_instance_wrapper.tp_new
    cases hi : native_instance_wrapper.initialize_ api subtype.mType args kwds s with
    | mk r s1 =>
      rw [hi] at hlog
      cases r with
      | error e => exact hlog
      | ok handle =>
        have hok := native_instance_wrapper.initialize_ok api _ args kwds s s1 handle hi
        refine ⟨hok.1, hlog, ?_⟩
        intro s2
        simp [native_instance_wrapper.tp_dealloc, Handle.dtor, hok.1, Runtime.record,
          Handle.get]

end TypedPython
